import Mathlib

/-!
Shallow embedding of the `golem` graphics wrapper (src/src/lib.rs,
src/src/context.rs) for verification.  The native `glow` OpenGL context is
modelled as explicit state plus a trace of emitted native calls; the numeric
`glow::*` constants are the standard OpenGL enum values that the `glow` crate
re-exports.  Modules `buffer`, `objects` and `program` of the crate are not
among the sources; the types they declare (`Attribute`, `Uniform`,
`ShaderDescription`, `UniformValue`, `GeometryType`, `ColorFormat`, `Buffer`)
are reconstructed from their uses in `context.rs` and `examples/image.rs`,
and where those uses do not determine them they are modelled from the spec,
as marked on each such definition.
-/

namespace Golem

/-! ### glow constants (OpenGL enum values re-exported by the glow crate) -/

namespace glow

def VERTEX_SHADER : Nat := 0x8B31
def FRAGMENT_SHADER : Nat := 0x8B30
def ARRAY_BUFFER : Nat := 0x8892
def ELEMENT_ARRAY_BUFFER : Nat := 0x8893
def STREAM_DRAW : Nat := 0x88E0
def TEXTURE_2D : Nat := 0x0DE1
def TEXTURE_WRAP_S : Nat := 0x2802
def TEXTURE_WRAP_T : Nat := 0x2803
def TEXTURE_MIN_FILTER : Nat := 0x2801
def TEXTURE_MAG_FILTER : Nat := 0x2800
def CLAMP_TO_EDGE : Nat := 0x812F
def LINEAR : Nat := 0x2601
def RGB : Nat := 0x1907
def RGBA : Nat := 0x1908
def UNSIGNED_BYTE : Nat := 0x1401
def UNSIGNED_INT : Nat := 0x1405
def MAX_TEXTURE_SIZE : Nat := 0x0D33
def CURRENT_PROGRAM : Nat := 0x8B8D
def TEXTURE0 : Nat := 0x84C0
def POINTS : Nat := 0x0000
def LINES : Nat := 0x0001
def LINE_LOOP : Nat := 0x0002
def LINE_STRIP : Nat := 0x0003
def TRIANGLES : Nat := 0x0004
def TRIANGLE_STRIP : Nat := 0x0005
def TRIANGLE_FAN : Nat := 0x0006

end glow

/-! ### Basic data types -/

/-- A 32-bit float value, carried opaquely by its bit pattern: the wrapper
never computes with floats, it only passes them through to native calls. -/
structure F32 where
  bits : Nat
deriving DecidableEq, Repr

/-- The `GolemError` type from src/src/lib.rs.  The declaration in lib.rs has the
variants `ShaderCompilationError(String)` and `ContextError(String)`;
`context.rs` (`Context::draw_with_type`) additionally constructs
`GolemError::NoBoundProgram`, a variant absent from the lib.rs declaration,
so it is included here to give that code a meaning. -/
inductive GolemError where
  | ShaderCompilationError (info : String)
  | ContextError (msg : String)
  | NoBoundProgram
deriving DecidableEq, Repr

/-- Conversion `impl From<String> for GolemError` (src/src/lib.rs): used by the `?`
operator on `Result<_, String>` values coming from glow. -/
def GolemError.fromString (other : String) : GolemError :=
  GolemError.ContextError other

/-- The `GeometryType` type: its variants are exactly those matched on in
`Context::draw_with_type` (src/src/context.rs). -/
inductive GeometryType where
  | Points
  | Lines
  | LineStrip
  | LineLoop
  | TriangleStrip
  | TriangleFan
  | Triangles
deriving DecidableEq, Repr

/-- The `ColorFormat` type: its variants are exactly those matched on in
`Context::new_texture` (src/src/context.rs). -/
inductive ColorFormat where
  | RGB
  | RGBA
deriving DecidableEq, Repr

/-- The `Position` type (crate::program): the two positions an attribute declaration
can occupy, as passed to `as_glsl` in `generate_shader_text`. -/
inductive Position where
  | Input
  | Output
deriving DecidableEq, Repr

/-- Modelled from the spec: `Attribute` (src/program.rs is not among the
sources).  The uses in `context.rs` and `examples/image.rs` only ever build
the `Vector(dimension, name)` form (`Attribute::Vector(2, "vert_position")`,
`Attribute::Vector(4, "outputColor")`), so that is the one constructor. -/
inductive Attribute where
  | Vector (dim : Nat) (name : String)
deriving DecidableEq, Repr

def Attribute.name : Attribute → String
  | .Vector _ n => n

def Attribute.size : Attribute → Nat
  | .Vector d _ => d

/-- Modelled from the spec: `Uniform` (src/program.rs is not among the
sources).  The spec says only that uniform declarations are generated into
the shader text; a uniform is modelled as a GLSL type name together with the
uniform's name. -/
structure Uniform where
  glslType : String
  name : String
deriving DecidableEq, Repr

/-- The standalone GLSL declaration text of an attribute at a position. -/
def Attribute.decl (pos : Position) : Attribute → String
  | .Vector d n =>
    (match pos with
     | .Input => "in "
     | .Output => "out ") ++ "vec" ++ toString d ++ " " ++ n ++ ";\n"

/-- Modelled from the spec: `Attribute::as_glsl` appends the attribute's
GLSL declaration for the given position to the shader string being built
(`generate_shader_text` passes the accumulating string by `&mut`). -/
def Attribute.as_glsl (attr : Attribute) (pos : Position) (shader : String) :
    String :=
  shader ++ attr.decl pos

/-- The standalone GLSL declaration text of a uniform. -/
def Uniform.decl (u : Uniform) : String :=
  "uniform " ++ u.glslType ++ " " ++ u.name ++ ";\n"

/-- Modelled from the spec: `Uniform::as_glsl` appends the uniform's GLSL
declaration to the shader string being built. -/
def Uniform.as_glsl (u : Uniform) (shader : String) : String :=
  shader ++ u.decl

/-- The `ShaderDescription` type (crate::program): its fields are exactly those used
by `Context::new_shader` and `examples/image.rs`. -/
structure ShaderDescription where
  vertex_input : List Attribute
  fragment_input : List Attribute
  uniforms : List Uniform
  vertex_shader : String
  fragment_shader : String
deriving DecidableEq, Repr

/-- The `ShaderProgram` type (crate::program), as constructed by
`Context::new_shader`: the native program and shader ids plus the cloned
vertex input attributes.  The `ctx` back-reference is context identity and
is not part of the value model. -/
structure ShaderProgram where
  id : Nat
  vertex : Nat
  fragment : Nat
  input : List Attribute
deriving DecidableEq, Repr

/-- The `Texture` type (crate::objects), as constructed by `Context::new_texture`:
the native texture id (the `ctx` back-reference is omitted as for
`ShaderProgram`). -/
structure Texture where
  id : Nat
deriving DecidableEq, Repr

/-- The `Buffer` type (crate::buffer), as constructed by `Context::new_buffer`:
native id and recorded byte length. -/
structure Buffer where
  id : Nat
  length : Nat
deriving DecidableEq, Repr

/-- The `ElementBuffer(Buffer)` newtype (crate::buffer). -/
structure ElementBuffer where
  buf : Buffer
deriving DecidableEq, Repr

/-- The `UniformValue` type (crate::objects): its variants are exactly those matched
on in `Context::bind_uniform` (src/src/context.rs).  Fixed-size float arrays
(`[f32; 4]` etc.) are carried as lists of `F32`. -/
inductive UniformValue where
  | Int (x : Int)
  | IVector2 (x y : Int)
  | IVector3 (x y z : Int)
  | IVector4 (x y z w : Int)
  | Float (x : F32)
  | Vector2 (x y : F32)
  | Vector3 (x y z : F32)
  | Vector4 (x y z w : F32)
  | Matrix2 (mat : List F32)
  | Matrix3 (mat : List F32)
  | Matrix4 (mat : List F32)
deriving DecidableEq, Repr

/-- The type `std::ops::Range<usize>` as used by the draw calls.  (`end` is a Lean
keyword, so the field is called `stop`.) -/
structure URange where
  start : Nat
  stop : Nat
deriving DecidableEq, Repr

/-! ### Native call trace

Each constructor records one native glow call, with the arguments the
wrapper passes to it. -/

inductive GLCall where
  | bindBuffer (target : Nat) (id : Option Nat)
  | bufferDataSize (target : Nat) (size : Nat) (usage : Nat)
  | bufferSubData (target : Nat) (offset : Nat) (data : List Nat)
  | drawElements (mode : Nat) (count : Nat) (indexType : Nat) (offset : Nat)
  | activeTexture (unit : Nat)
  | bindTexture (target : Nat) (id : Option Nat)
  | texParameterI (target : Nat) (pname : Nat) (param : Nat)
  | texImage2D (target : Nat) (level : Nat) (internalFormat : Nat)
      (width : Nat) (height : Nat) (border : Nat) (format : Nat)
      (ty : Nat) (data : Option (List Nat))
  | uniform1i (loc : Option Nat) (x : Int)
  | uniform2i (loc : Option Nat) (x y : Int)
  | uniform3i (loc : Option Nat) (x y z : Int)
  | uniform4i (loc : Option Nat) (x y z w : Int)
  | uniform1f (loc : Option Nat) (x : F32)
  | uniform2f (loc : Option Nat) (x y : F32)
  | uniform3f (loc : Option Nat) (x y z : F32)
  | uniform4f (loc : Option Nat) (x y z w : F32)
  | uniformMatrix2 (loc : Option Nat) (transpose : Bool) (mat : List F32)
  | uniformMatrix3 (loc : Option Nat) (transpose : Bool) (mat : List F32)
  | uniformMatrix4 (loc : Option Nat) (transpose : Bool) (mat : List F32)
deriving DecidableEq, Repr

/-- Whether a trace entry is a `tex_parameter_i32` call. -/
def GLCall.isTexParameter : GLCall → Bool
  | .texParameterI _ _ _ => true
  | _ => false

/-- Whether a trace entry is a `draw_elements` call. -/
def GLCall.isDrawElements : GLCall → Bool
  | .drawElements _ _ _ _ => true
  | _ => false

/-! ### generate_shader_text (src/src/context.rs, lines 24–43)

The `#[cfg(not(target_arch = "wasm32"))]` branch (desktop GL) is the one
modelled, as in the rest of this file. -/

def generate_shader_text (body : String) (inputs : List Attribute)
    (outputs : List Attribute) (uniforms : List Uniform) : String :=
  let shader := ""
  let shader := shader ++ "#version 150\n"
  let shader := shader ++ "precision mediump float;\n"
  let shader := inputs.foldl (fun s attr => attr.as_glsl Position.Input s) shader
  let shader := outputs.foldl (fun s attr => attr.as_glsl Position.Output s) shader
  let shader := uniforms.foldl (fun s u => u.as_glsl s) shader
  let shader := shader ++ body
  shader

/-! ### Context::send_data (src/src/context.rs, lines 194–209)

`data: &[T]` enters as its byte image `u8_buffer` (the result of
`bytemuck::cast_slice`) together with `size_of::<T>()`; `length` is the
buffer's recorded length, passed by `&mut` in Rust and threaded explicitly
here.  Returns the updated recorded length and the emitted native calls. -/

def send_data (sizeOfT : Nat) (bind : Nat) (length : Nat) (start : Nat)
    (u8_buffer : List Nat) : Nat × List GLCall :=
  let data_start := sizeOfT * start
  let data_length := u8_buffer.length
  if data_length + start ≥ length then
    let new_length := (data_length + data_start) * 2
    (new_length,
     [GLCall.bufferDataSize bind new_length glow.STREAM_DRAW,
      GLCall.bufferSubData bind start u8_buffer])
  else
    (length, [GLCall.bufferSubData bind start u8_buffer])

/-! ### Context::draw / draw_with_type (src/src/context.rs, lines 256–284)

The only piece of native state these read is
`get_parameter_i32(glow::CURRENT_PROGRAM)`, passed in as `current_program`
(0 meaning no program bound).  Returns the Rust `Result` and the emitted
native calls. -/

def GeometryType.shapeType : GeometryType → Nat
  | .Points => glow.POINTS
  | .Lines => glow.LINES
  | .LineStrip => glow.LINE_STRIP
  | .LineLoop => glow.LINE_LOOP
  | .TriangleStrip => glow.TRIANGLE_STRIP
  | .TriangleFan => glow.TRIANGLE_FAN
  | .Triangles => glow.TRIANGLES

def draw_with_type (current_program : Nat) (eb : ElementBuffer)
    (range : URange) (geometry : GeometryType) :
    Except GolemError Unit × List GLCall :=
  if current_program = 0 then
    (Except.error GolemError.NoBoundProgram, [])
  else
    let length := range.stop - range.start
    let shape_type := geometry.shapeType
    (Except.ok (),
     [GLCall.bindBuffer glow.ELEMENT_ARRAY_BUFFER (some eb.buf.id),
      GLCall.drawElements shape_type length glow.UNSIGNED_INT range.start])

def draw (current_program : Nat) (eb : ElementBuffer) (range : URange) :
    Except GolemError Unit × List GLCall :=
  draw_with_type current_program eb range GeometryType.Triangles

/-! ### Context::new_shader (src/src/context.rs, lines 66–131)

The native compiler/linker is an oracle: `create_shader`, `create_program`
are the fallible glow object creations (`Result<u32, String>`), and
compilation/link status and info logs are functions of the created ids.
`shader_source`, `compile_shader`, `attach_shader`, `bind_frag_data_location`,
`bind_attrib_location` and `link_program` only feed that oracle. -/

structure GlowShaderApi where
  create_shader : Nat → Except String Nat
  get_shader_compile_status : Nat → Bool
  get_shader_info_log : Nat → String
  create_program : Except String Nat
  get_program_link_status : Nat → Bool
  get_program_info_log : Nat → String

/-- Rust `str::replace` on whole-substring occurrences, used for
`desc.fragment_shader.replace("gl_FragColor", "outputColor")`. -/
def rustReplace (s pat rep : String) : String :=
  String.intercalate rep (s.splitOn pat)

def new_shader (gl : GlowShaderApi) (desc : ShaderDescription) :
    Except GolemError ShaderProgram :=
  match gl.create_shader glow.VERTEX_SHADER with
  | Except.error e => Except.error (GolemError.fromString e)
  | Except.ok vertex =>
    let _vertex_source := generate_shader_text desc.vertex_shader
      desc.vertex_input desc.fragment_input desc.uniforms
    if !(gl.get_shader_compile_status vertex) then
      Except.error (GolemError.ShaderCompilationError (gl.get_shader_info_log vertex))
    else
      match gl.create_shader glow.FRAGMENT_SHADER with
      | Except.error e => Except.error (GolemError.fromString e)
      | Except.ok fragment =>
        let fragment_output := [Attribute.Vector 4 "outputColor"]
        let fragment_body := rustReplace desc.fragment_shader "gl_FragColor" "outputColor"
        let _fragment_source := generate_shader_text fragment_body
          desc.fragment_input fragment_output desc.uniforms
        if !(gl.get_shader_compile_status fragment) then
          Except.error (GolemError.ShaderCompilationError (gl.get_shader_info_log fragment))
        else
          match gl.create_program with
          | Except.error e => Except.error (GolemError.fromString e)
          | Except.ok id =>
            if !(gl.get_program_link_status id) then
              Except.error (GolemError.ShaderCompilationError (gl.get_program_info_log id))
            else
              Except.ok { id := id, vertex := vertex, fragment := fragment,
                          input := desc.vertex_input }

/-! ### Context::new_texture (src/src/context.rs, lines 152–178)

`create_texture` is the fallible glow creation (`Result<u32, String>`);
`none` in the outer `Option` models the `assert!` panics, which abort before
any native call is made. -/

def new_texture (create_texture : Except String Nat) (image : List Nat)
    (width height : Nat) (color : ColorFormat) :
    Option (Except GolemError (Texture × List GLCall)) :=
  if ¬ (width < glow.MAX_TEXTURE_SIZE) then
    none
  else if ¬ (height < glow.MAX_TEXTURE_SIZE) then
    none
  else
    let format := match color with
      | ColorFormat.RGB => glow.RGB
      | ColorFormat.RGBA => glow.RGBA
    match create_texture with
    | Except.error e => some (Except.error (GolemError.fromString e))
    | Except.ok id =>
      some (Except.ok ({ id := id },
        [GLCall.bindTexture glow.TEXTURE_2D (some id),
         GLCall.texParameterI glow.TEXTURE_2D glow.TEXTURE_WRAP_S glow.CLAMP_TO_EDGE,
         GLCall.texParameterI glow.TEXTURE_2D glow.TEXTURE_WRAP_T glow.CLAMP_TO_EDGE,
         GLCall.texParameterI glow.TEXTURE_2D glow.TEXTURE_MIN_FILTER glow.LINEAR,
         GLCall.texParameterI glow.TEXTURE_2D glow.TEXTURE_MAG_FILTER glow.LINEAR,
         GLCall.texImage2D glow.TEXTURE_2D 0 glow.RGBA width height 0 format
           glow.UNSIGNED_BYTE (some image),
         GLCall.bindTexture glow.TEXTURE_2D none]))

/-! ### Context::bind_uniform (src/src/context.rs, lines 287–308)

`get_uniform_location` is the native lookup, a function of the program id
and the uniform name; it returns `none` when the name has no location in the
program.  Returns the Rust `Result` and the emitted native calls. -/

def bind_uniform (get_uniform_location : Nat → String → Option Nat)
    (id : Nat) (name : String) (uniform : UniformValue) :
    Except GolemError Unit × List GLCall :=
  let location := get_uniform_location id name
  let calls := match uniform with
    | UniformValue.Int x => [GLCall.uniform1i location x]
    | UniformValue.IVector2 x y => [GLCall.uniform2i location x y]
    | UniformValue.IVector3 x y z => [GLCall.uniform3i location x y z]
    | UniformValue.IVector4 x y z w => [GLCall.uniform4i location x y z w]
    | UniformValue.Float x => [GLCall.uniform1f location x]
    | UniformValue.Vector2 x y => [GLCall.uniform2f location x y]
    | UniformValue.Vector3 x y z => [GLCall.uniform3f location x y z]
    | UniformValue.Vector4 x y z w => [GLCall.uniform4f location x y z w]
    | UniformValue.Matrix2 mat => [GLCall.uniformMatrix2 location false mat]
    | UniformValue.Matrix3 mat => [GLCall.uniformMatrix3 location false mat]
    | UniformValue.Matrix4 mat => [GLCall.uniformMatrix4 location false mat]
  (Except.ok (), calls)

/-! ### Helper lemmas -/

theorem join_cons (s : String) (l : List String) :
    String.join (s :: l) = s ++ String.join l := by
  apply String.ext
  simp [String.join_eq]

theorem foldl_append_join {α : Type} (f : α → String) :
    ∀ (l : List α) (s : String),
      l.foldl (fun acc a => acc ++ f a) s = s ++ String.join (l.map f)
  | [], s => by simp [String.join]
  | a :: l, s => by
    rw [List.foldl_cons, foldl_append_join f l (s ++ f a), List.map_cons,
      join_cons, String.append_assoc]

/-! ### Theorems for the claims -/

/-- C1: a call to `Context::draw` or `Context::draw_with_type` made while no
shader program is bound (`CURRENT_PROGRAM` is 0) returns
`GolemError::NoBoundProgram` and issues no native call at all (in particular
no `draw_elements`); and a draw call returns `Ok` only when a program is
bound. -/
theorem draw_requires_bound_program (p q : Nat) (eb : ElementBuffer)
    (r : URange) (g : GeometryType) (h : p = 0) :
    (draw_with_type p eb r g = (Except.error GolemError.NoBoundProgram, []) ∧
     draw p eb r = (Except.error GolemError.NoBoundProgram, [])) ∧
    ((draw_with_type q eb r g).1 = Except.ok () → q ≠ 0) ∧
    ((draw q eb r).1 = Except.ok () → q ≠ 0) := by
  subst h
  refine ⟨⟨rfl, rfl⟩, ?_, ?_⟩ <;>
    · intro hok hq
      subst hq
      simp [draw, draw_with_type] at hok

theorem draw_requires_bound_program_witness :
    (draw_with_type 0 ⟨⟨1, 0⟩⟩ ⟨0, 3⟩ GeometryType.Lines =
       (Except.error GolemError.NoBoundProgram, []) ∧
     draw 0 ⟨⟨1, 0⟩⟩ ⟨0, 3⟩ = (Except.error GolemError.NoBoundProgram, [])) :=
  (draw_requires_bound_program 0 1 ⟨⟨1, 0⟩⟩ ⟨0, 3⟩ GeometryType.Lines rfl).1

/-- C9: `Context::draw(eb, range)` is definitionally
`Context::draw_with_type(eb, range, GeometryType::Triangles)`: same result,
same native calls. -/
theorem draw_eq_draw_with_type_triangles (p : Nat) (eb : ElementBuffer)
    (r : URange) :
    draw p eb r = draw_with_type p eb r GeometryType.Triangles := rfl

/-- C10: `Context::bind_uniform` returns `Ok(())` for every uniform name and
every `UniformValue`, for every location-lookup behaviour (including names
that resolve to no location). -/
theorem bind_uniform_always_ok (loc : Nat → String → Option Nat) (id : Nat)
    (name : String) (u : UniformValue) :
    (bind_uniform loc id name u).1 = Except.ok () := rfl

/-- C6: `Context::bind_uniform` dispatches solely on the runtime tag of the
`UniformValue`: each of the eleven variants produces exactly the
corresponding native set-uniform call, carrying the variant's components at
the location resolved from the given name. -/
theorem bind_uniform_dispatch (loc : Nat → String → Option Nat) (id : Nat)
    (name : String) :
    (∀ x, bind_uniform loc id name (UniformValue.Int x) =
       (Except.ok (), [GLCall.uniform1i (loc id name) x])) ∧
    (∀ x y, bind_uniform loc id name (UniformValue.IVector2 x y) =
       (Except.ok (), [GLCall.uniform2i (loc id name) x y])) ∧
    (∀ x y z, bind_uniform loc id name (UniformValue.IVector3 x y z) =
       (Except.ok (), [GLCall.uniform3i (loc id name) x y z])) ∧
    (∀ x y z w, bind_uniform loc id name (UniformValue.IVector4 x y z w) =
       (Except.ok (), [GLCall.uniform4i (loc id name) x y z w])) ∧
    (∀ x, bind_uniform loc id name (UniformValue.Float x) =
       (Except.ok (), [GLCall.uniform1f (loc id name) x])) ∧
    (∀ x y, bind_uniform loc id name (UniformValue.Vector2 x y) =
       (Except.ok (), [GLCall.uniform2f (loc id name) x y])) ∧
    (∀ x y z, bind_uniform loc id name (UniformValue.Vector3 x y z) =
       (Except.ok (), [GLCall.uniform3f (loc id name) x y z])) ∧
    (∀ x y z w, bind_uniform loc id name (UniformValue.Vector4 x y z w) =
       (Except.ok (), [GLCall.uniform4f (loc id name) x y z w])) ∧
    (∀ mat, bind_uniform loc id name (UniformValue.Matrix2 mat) =
       (Except.ok (), [GLCall.uniformMatrix2 (loc id name) false mat])) ∧
    (∀ mat, bind_uniform loc id name (UniformValue.Matrix3 mat) =
       (Except.ok (), [GLCall.uniformMatrix3 (loc id name) false mat])) ∧
    (∀ mat, bind_uniform loc id name (UniformValue.Matrix4 mat) =
       (Except.ok (), [GLCall.uniformMatrix4 (loc id name) false mat])) :=
  ⟨fun _ => rfl, fun _ _ => rfl, fun _ _ _ => rfl, fun _ _ _ _ => rfl,
   fun _ => rfl, fun _ _ => rfl, fun _ _ _ => rfl, fun _ _ _ _ => rfl,
   fun _ => rfl, fun _ => rfl, fun _ => rfl⟩

/-- C2 counterexample: with `size_of::<T>() = 1`, a buffer of recorded
length 4 and a 4-byte write at start offset 0, the new data does NOT exceed
the current capacity (required byte size 4 ≤ 4), yet `send_data` grows the
buffer (the recorded length changes to 8): growth does not happen "exactly
when the new data exceeds the current capacity". -/
theorem send_data_grows_without_exceeding :
    1 * 0 + 4 ≤ 4 ∧
    (send_data 1 glow.ARRAY_BUFFER 4 0 [0, 0, 0, 0]).1 = 8 := by decide

/-- C2 (amended): `send_data` grows the buffer exactly when the byte length
of the new data plus the (element) start offset reaches or exceeds the
recorded length; it then records twice the byte size required to hold the
written data at the given start offset (byte length plus
`size_of::<T>() * start`) and writes the data at offset `start`; otherwise
it only writes the data at offset `start`. -/
theorem send_data_growth (sizeOfT bind length start : Nat) (buf : List Nat) :
    (buf.length + start ≥ length →
       send_data sizeOfT bind length start buf =
         ((buf.length + sizeOfT * start) * 2,
          [GLCall.bufferDataSize bind ((buf.length + sizeOfT * start) * 2)
             glow.STREAM_DRAW,
           GLCall.bufferSubData bind start buf])) ∧
    (buf.length + start < length →
       send_data sizeOfT bind length start buf =
         (length, [GLCall.bufferSubData bind start buf])) := by
  constructor
  · intro h
    simp [send_data, h]
  · intro h
    rw [send_data, if_neg (by omega)]

theorem send_data_growth_witness :
    send_data 1 glow.ARRAY_BUFFER 4 2 [7, 7, 7] =
      (10,
       [GLCall.bufferDataSize glow.ARRAY_BUFFER 10 glow.STREAM_DRAW,
        GLCall.bufferSubData glow.ARRAY_BUFFER 2 [7, 7, 7]]) :=
  (send_data_growth 1 glow.ARRAY_BUFFER 4 2 [7, 7, 7]).1 (by decide)

/-- C7 counterexample: with `size_of::<T>() = 1`, a buffer of recorded
length 5 and a 3-byte write at start offset 2, the write fits within the
recorded length (bytes 2..5, 1*2 + 3 ≤ 5), yet `send_data` grows the buffer
(the recorded length changes to 10 instead of staying 5). -/
theorem send_data_grows_although_it_fits :
    1 * 2 + 3 ≤ 5 ∧
    (send_data 1 glow.ARRAY_BUFFER 5 2 [7, 7, 7]).1 = 10 := by decide

/-- C7 (amended): for every `send_data` write whose data byte length plus
the (element) start offset is strictly less than the recorded length, the
call only overwrites the region starting at the given offset and leaves the
recorded length unchanged — no growth occurs. -/
theorem send_data_no_growth (sizeOfT bind length start : Nat)
    (buf : List Nat) (h : buf.length + start < length) :
    (send_data sizeOfT bind length start buf).1 = length ∧
    (send_data sizeOfT bind length start buf).2 =
      [GLCall.bufferSubData bind start buf] := by
  rw [send_data, if_neg (by omega)]
  exact ⟨rfl, rfl⟩

theorem string_empty_append (s : String) : "" ++ s = s := by
  apply String.ext
  simp

/-- C3: the shader text produced by `generate_shader_text` is the
concatenation, in this order, of the fixed header (the `#version 150`
directive of desktop targets followed by the default float precision
declaration), the input attribute declarations in the order listed, the
output attribute declarations in the order listed, the uniform declarations
in the order listed, and the user-supplied body, with nothing else
interleaved. -/
theorem generate_shader_text_structure (body : String)
    (ins outs : List Attribute) (unis : List Uniform) :
    generate_shader_text body ins outs unis =
      "#version 150\n" ++ "precision mediump float;\n" ++
      String.join (ins.map fun a => a.decl Position.Input) ++
      String.join (outs.map fun a => a.decl Position.Output) ++
      String.join (unis.map Uniform.decl) ++ body := by
  simp only [generate_shader_text, Attribute.as_glsl, Uniform.as_glsl,
    foldl_append_join, string_empty_append, String.append_assoc]

/-- C4: `Context::new_shader` (with the three native object creations
succeeding) returns a `ShaderProgram` exactly when vertex compilation,
fragment compilation and program linking all succeed; whichever of the three
fails first yields `GolemError::ShaderCompilationError` carrying that step's
info log, and no `ShaderProgram` is produced. -/
theorem new_shader_result (gl : GlowShaderApi) (desc : ShaderDescription)
    (v f p : Nat)
    (hv : gl.create_shader glow.VERTEX_SHADER = Except.ok v)
    (hf : gl.create_shader glow.FRAGMENT_SHADER = Except.ok f)
    (hp : gl.create_program = Except.ok p) :
    (gl.get_shader_compile_status v = true →
     gl.get_shader_compile_status f = true →
     gl.get_program_link_status p = true →
       new_shader gl desc =
         Except.ok { id := p, vertex := v, fragment := f,
                     input := desc.vertex_input }) ∧
    (gl.get_shader_compile_status v = false →
       new_shader gl desc = Except.error
         (GolemError.ShaderCompilationError (gl.get_shader_info_log v))) ∧
    (gl.get_shader_compile_status v = true →
     gl.get_shader_compile_status f = false →
       new_shader gl desc = Except.error
         (GolemError.ShaderCompilationError (gl.get_shader_info_log f))) ∧
    (gl.get_shader_compile_status v = true →
     gl.get_shader_compile_status f = true →
     gl.get_program_link_status p = false →
       new_shader gl desc = Except.error
         (GolemError.ShaderCompilationError (gl.get_program_info_log p))) ∧
    (∀ prog, new_shader gl desc = Except.ok prog →
       gl.get_shader_compile_status v = true ∧
       gl.get_shader_compile_status f = true ∧
       gl.get_program_link_status p = true) := by
  refine ⟨?_, ?_, ?_, ?_, ?_⟩
  · intro h1 h2 h3
    simp [new_shader, hv, hf, hp, h1, h2, h3]
  · intro h1
    simp [new_shader, hv, h1]
  · intro h1 h2
    simp [new_shader, hv, hf, h1, h2]
  · intro h1 h2 h3
    simp [new_shader, hv, hf, hp, h1, h2, h3]
  · intro prog hok
    by_cases h1 : gl.get_shader_compile_status v
    · by_cases h2 : gl.get_shader_compile_status f
      · by_cases h3 : gl.get_program_link_status p
        · exact ⟨h1, h2, h3⟩
        · simp [new_shader, hv, hf, hp, h1, h2,
            Bool.eq_false_iff.mpr h3] at hok
      · simp [new_shader, hv, hf, h1, Bool.eq_false_iff.mpr h2] at hok
    · simp [new_shader, hv, Bool.eq_false_iff.mpr h1] at hok

theorem new_shader_result_witness :
    new_shader
      { create_shader := fun t => Except.ok t,
        get_shader_compile_status := fun _ => true,
        get_shader_info_log := fun _ => "",
        create_program := Except.ok 7,
        get_program_link_status := fun _ => true,
        get_program_info_log := fun _ => "" }
      { vertex_input := [], fragment_input := [], uniforms := [],
        vertex_shader := "", fragment_shader := "" } =
      Except.ok { id := 7, vertex := glow.VERTEX_SHADER,
                  fragment := glow.FRAGMENT_SHADER, input := [] } :=
  (new_shader_result
    { create_shader := fun t => Except.ok t,
      get_shader_compile_status := fun _ => true,
      get_shader_info_log := fun _ => "",
      create_program := Except.ok 7,
      get_program_link_status := fun _ => true,
      get_program_info_log := fun _ => "" }
    { vertex_input := [], fragment_input := [], uniforms := [],
      vertex_shader := "", fragment_shader := "" }
    glow.VERTEX_SHADER glow.FRAGMENT_SHADER 7 rfl rfl rfl).1 rfl rfl rfl

/-- C5: every texture successfully created by `Context::new_texture` has the
same fixed filtering and wrap parameters regardless of the image data, the
dimensions and the color format: `CLAMP_TO_EDGE` on the S and T wrap axes
and `LINEAR` for the minification and magnification filters. -/
theorem new_texture_fixed_parameters (image : List Nat)
    (width height : Nat) (color : ColorFormat) (tid : Nat)
    (hw : width < glow.MAX_TEXTURE_SIZE)
    (hh : height < glow.MAX_TEXTURE_SIZE) :
    ∃ tex trace,
      new_texture (Except.ok tid) image width height color =
        some (Except.ok (tex, trace)) ∧
      trace.filter GLCall.isTexParameter =
        [GLCall.texParameterI glow.TEXTURE_2D glow.TEXTURE_WRAP_S
           glow.CLAMP_TO_EDGE,
         GLCall.texParameterI glow.TEXTURE_2D glow.TEXTURE_WRAP_T
           glow.CLAMP_TO_EDGE,
         GLCall.texParameterI glow.TEXTURE_2D glow.TEXTURE_MIN_FILTER
           glow.LINEAR,
         GLCall.texParameterI glow.TEXTURE_2D glow.TEXTURE_MAG_FILTER
           glow.LINEAR] := by
  refine ⟨{ id := tid },
    [GLCall.bindTexture glow.TEXTURE_2D (some tid),
     GLCall.texParameterI glow.TEXTURE_2D glow.TEXTURE_WRAP_S
       glow.CLAMP_TO_EDGE,
     GLCall.texParameterI glow.TEXTURE_2D glow.TEXTURE_WRAP_T
       glow.CLAMP_TO_EDGE,
     GLCall.texParameterI glow.TEXTURE_2D glow.TEXTURE_MIN_FILTER
       glow.LINEAR,
     GLCall.texParameterI glow.TEXTURE_2D glow.TEXTURE_MAG_FILTER
       glow.LINEAR,
     GLCall.texImage2D glow.TEXTURE_2D 0 glow.RGBA width height 0
       (match color with
        | ColorFormat.RGB => glow.RGB
        | ColorFormat.RGBA => glow.RGBA)
       glow.UNSIGNED_BYTE (some image),
     GLCall.bindTexture glow.TEXTURE_2D none], ?_, ?_⟩
  · simp [new_texture, hw, hh]
  · simp [List.filter, GLCall.isTexParameter]

theorem new_texture_fixed_parameters_witness :
    ∃ tex trace,
      new_texture (Except.ok 3) [] 1 1 ColorFormat.RGBA =
        some (Except.ok (tex, trace)) ∧
      trace.filter GLCall.isTexParameter =
        [GLCall.texParameterI glow.TEXTURE_2D glow.TEXTURE_WRAP_S
           glow.CLAMP_TO_EDGE,
         GLCall.texParameterI glow.TEXTURE_2D glow.TEXTURE_WRAP_T
           glow.CLAMP_TO_EDGE,
         GLCall.texParameterI glow.TEXTURE_2D glow.TEXTURE_MIN_FILTER
           glow.LINEAR,
         GLCall.texParameterI glow.TEXTURE_2D glow.TEXTURE_MAG_FILTER
           glow.LINEAR] :=
  new_texture_fixed_parameters [] 1 1 ColorFormat.RGBA 3
    (by decide) (by decide)

/-- C8: `Context::new_texture` panics on an assertion (modelled as `none`),
before any native call, whenever `width` or `height` is not strictly below
the constant `glow::MAX_TEXTURE_SIZE`; when both are strictly below it the
assertion branch is not taken and the call proceeds. -/
theorem new_texture_assertion (create : Except String Nat)
    (image : List Nat) (width height : Nat) (color : ColorFormat) :
    (¬(width < glow.MAX_TEXTURE_SIZE ∧ height < glow.MAX_TEXTURE_SIZE) →
       new_texture create image width height color = none) ∧
    (width < glow.MAX_TEXTURE_SIZE → height < glow.MAX_TEXTURE_SIZE →
       (new_texture create image width height color).isSome = true) := by
  constructor
  · intro h
    by_cases hw : width < glow.MAX_TEXTURE_SIZE
    · have hh : ¬ height < glow.MAX_TEXTURE_SIZE := fun hh => h ⟨hw, hh⟩
      simp [new_texture, hw, hh]
    · simp [new_texture, hw]
  · intro hw hh
    cases create <;> simp [new_texture, hw, hh]

theorem new_texture_assertion_witness :
    new_texture (Except.ok 1) [] 5000 1 ColorFormat.RGB = none :=
  (new_texture_assertion (Except.ok 1) [] 5000 1 ColorFormat.RGB).1
    (by decide)

theorem send_data_no_growth_witness :
    (send_data 4 glow.ELEMENT_ARRAY_BUFFER 100 3 [1, 2, 3, 4]).1 = 100 ∧
    (send_data 4 glow.ELEMENT_ARRAY_BUFFER 100 3 [1, 2, 3, 4]).2 =
      [GLCall.bufferSubData glow.ELEMENT_ARRAY_BUFFER 3 [1, 2, 3, 4]] :=
  send_data_no_growth 4 glow.ELEMENT_ARRAY_BUFFER 100 3 [1, 2, 3, 4]
    (by decide)

end Golem
